import Mathlib

/-!
Verification of the hard-coded shader registry of the Imagination PowerVR
Vulkan driver (src/imagination/vulkan/pvr_hardcode.c).

The C module keeps a static registry of per-application hard-coded shader
artifacts, keyed by the running process name, and exposes one compute-path
accessor and four graphics-path accessors.  The ambient process identity,
the registry table and the external GPU uploader are passed explicitly as
parameters here; C `assert` failures, and the dereference of a NULL
resolution result, are modelled as a `none` result.
-/

/-- Modelled from the spec: the unused-register sentinel `ROGUE_REG_UNUSED`
from the external rogue register definitions (not part of this excerpt). -/
def ROGUE_REG_UNUSED : Nat := 4294967295

/-- Modelled from the spec: `struct pvr_explicit_constant_usage` — the
hardware register offset assigned to the first explicit constant of a stage
(declared in pvr_hardcode.h). -/
structure PvrExplicitConstantUsage where
  start_offset : Nat
deriving DecidableEq, Repr

/-- Modelled from the spec: `struct rogue_ubo_data` (external rogue build
data) — the UBO layout record; opaque to this module, zero-initialised in
the shipped table. -/
structure RogueUboData where
  data : Nat
deriving DecidableEq, Repr

/-- Modelled from the spec: `struct pvr_compute_pipeline_shader_state`
(declared in pvr_private.h, external to this excerpt): flags for
atomic/barrier/workgroup-count usage, register counts, work-group size and
the uploaded-memory handle `bo` (a pointer; 0 models NULL). -/
structure PvrComputePipelineShaderState where
  uses_atomic_ops : Bool
  uses_barrier : Bool
  uses_num_workgroups : Bool
  const_shared_reg_count : Nat
  input_register_count : Nat
  work_size : Nat
  coefficient_register_count : Nat
  bo : Nat
deriving DecidableEq, Repr

/-- `struct pvr_hard_code_compute_build_info` from pvr_hardcode.h. -/
structure PvrHardCodeComputeBuildInfo where
  ubo_data : RogueUboData
  local_invocation_regs : Nat × Nat
  work_group_regs : Nat × Nat × Nat
  barrier_reg : Nat
  usc_temps : Nat
  explicit_conts_usage : PvrExplicitConstantUsage
deriving DecidableEq, Repr

/-- Modelled from the spec: the per-stage state embedded in the vertex and
fragment shader-state records (pvr_private.h): a count of temporaries and
a coefficient-register size. -/
structure PvrStageState where
  temps_count : Nat
  coefficient_size : Nat
deriving DecidableEq, Repr

/-- Modelled from the spec: `struct pvr_vertex_shader_state`
(pvr_private.h); only the `stage_state` sub-record is read here. -/
structure PvrVertexShaderState where
  stage_state : PvrStageState
deriving DecidableEq, Repr

/-- Modelled from the spec: `struct pvr_fragment_shader_state`
(pvr_private.h); only the `stage_state` sub-record is read here. -/
structure PvrFragmentShaderState where
  stage_state : PvrStageState
deriving DecidableEq, Repr

/-- Modelled from the spec: `struct rogue_build_data` (external rogue build
data) — per-stage build data, opaque to this module. -/
structure RogueBuildData where
  data : Nat
deriving DecidableEq, Repr

/-- Modelled from the spec: `struct rogue_common_build_data` (external
rogue build data); the fields read by this module are the temp count and
the coefficient-register count. -/
structure RogueCommonBuildData where
  temps : Nat
  coeffs : Nat
deriving DecidableEq, Repr

/-- `struct pvr_hard_code_graphics_build_info` from pvr_hardcode.h. -/
structure PvrHardCodeGraphicsBuildInfo where
  stage_data : RogueBuildData
  vert_common_data : RogueCommonBuildData
  frag_common_data : RogueCommonBuildData
  vert_explicit_conts_usage : PvrExplicitConstantUsage
  frag_explicit_conts_usage : PvrExplicitConstantUsage
deriving DecidableEq, Repr

/-- The `compute` variant of the union inside `struct pvr_hard_coding_data`.
The shader binary blob is a byte sequence; `shader_size` is its length in
the shipped table but is an independent field, as in the C struct. -/
structure ComputeData where
  shader : List Nat
  shader_size : Nat
  shader_info : PvrComputePipelineShaderState
  build_info : PvrHardCodeComputeBuildInfo
deriving DecidableEq, Repr

/-- The `graphics` variant of the union inside `struct pvr_hard_coding_data`.
The shader-binary arrays hold non-owning references (pointer identities,
modelled as numbers); the parallel arrays are indexed by pipeline creation
order, and `shader_count` is the declared number of pipelines. -/
structure GraphicsData where
  vert_shaders : List Nat
  frag_shaders : List Nat
  vert_shader_states : List PvrVertexShaderState
  frag_shader_states : List PvrFragmentShaderState
  build_infos : List PvrHardCodeGraphicsBuildInfo
  shader_count : Nat
deriving DecidableEq, Repr

/-- The tagged union over `enum pvr_hard_code_shader_type`: the constructor
is the `type` discriminator of `struct pvr_hard_coding_data`. -/
inductive PvrHardCodePayload where
  | compute (c : ComputeData)
  | graphics (g : GraphicsData)
deriving DecidableEq, Repr

/-- `struct pvr_hard_coding_data`: one registry entry, keyed by the exact
process name it applies to. -/
structure PvrHardCodingData where
  name : String
  payload : PvrHardCodePayload
deriving DecidableEq, Repr

/-- Modelled from the spec: the raw byte blob `pvr_simple_compute_shader`
from usc/hardcoded_apps/pvr_simple_compute.h (external to this excerpt);
its contents are opaque to the registry logic. -/
def pvr_simple_compute_shader : List Nat := [0, 0, 0, 0]

/-- `compilable_progs`: applications for which the compiler is capable of
generating valid shaders (pvr_hardcode.c lines 52-54). -/
def compilable_progs : List String := ["triangle"]

/-- The `compute` payload of the single shipped registry entry
(pvr_hardcode.c lines 90-117). -/
def simple_compute_data : ComputeData :=
  { shader := pvr_simple_compute_shader,
    shader_size := pvr_simple_compute_shader.length,
    shader_info :=
      { uses_atomic_ops := false,
        uses_barrier := false,
        uses_num_workgroups := false,
        const_shared_reg_count := 4,
        input_register_count := 8,
        work_size := 1 * 1 * 1,
        coefficient_register_count := 4,
        bo := 0 },
    build_info :=
      { ubo_data := { data := 0 },
        local_invocation_regs := (0, 1),
        work_group_regs := (0, 1, 2),
        barrier_reg := ROGUE_REG_UNUSED,
        usc_temps := 0,
        explicit_conts_usage := { start_offset := 0 } } }

/-- The single shipped registry entry (pvr_hardcode.c lines 86-118). -/
def simple_compute_entry : PvrHardCodingData :=
  { name := "simple-compute",
    payload := .compute simple_compute_data }

/-- `hard_coding_table` (pvr_hardcode.c lines 85-119): the shipped registry. -/
def hard_coding_table : List PvrHardCodingData := [simple_compute_entry]

/-- The loop body of `pvr_hard_code_shader_required`: scan the allow-list,
returning `false` on the first `strcmp` match, `true` when the list is
exhausted (pvr_hardcode.c lines 125-130). -/
def shader_required_scan : List String → String → Bool
  | [], _ => true
  | p :: rest, program =>
    if program == p then false else shader_required_scan rest program

/-- `pvr_hard_code_shader_required` (pvr_hardcode.c lines 121-131), with the
ambient process name passed explicitly. -/
def pvr_hard_code_shader_required (program : String) : Bool :=
  shader_required_scan compilable_progs program

/-- The loop body of `pvr_get_hard_coding_data`: linear scan of the table,
returning the first entry whose name `strcmp`-equals the process name
(pvr_hardcode.c lines 137-140). -/
def find_hard_coding_data : List PvrHardCodingData → String → Option PvrHardCodingData
  | [], _ => none
  | d :: rest, program =>
    if program == d.name then some d else find_hard_coding_data rest program

/-- `pvr_get_hard_coding_data` (pvr_hardcode.c lines 133-145): the first
component is the returned entry (NULL modelled as `none`); the second is
the list of error-level diagnostics emitted via `mesa_loge`. -/
def pvr_get_hard_coding_data (table : List PvrHardCodingData) (program : String) :
    Option PvrHardCodingData × List String :=
  match find_hard_coding_data table program with
  | some d => (some d, [])
  | none => (none, ["Could not find hard coding data for " ++ program])

/-- The observable steps of `pvr_hard_code_compute_pipeline`, in program
order: the two output writes, then the call into the external uploader. -/
inductive ComputeEvent where
  | write_build_info
  | write_shader_state
  | call_upload
deriving DecidableEq, Repr

/-- The caller-visible outcome of `pvr_hard_code_compute_pipeline`: the
returned `VkResult` (an integer, `VK_SUCCESS = 0`), the final contents of
the two caller-provided output slots, and the event trace. -/
structure ComputeResult where
  ret : Int
  shader_state : PvrComputePipelineShaderState
  build_info : PvrHardCodeComputeBuildInfo
  events : List ComputeEvent
deriving DecidableEq, Repr

/-- `pvr_hard_code_compute_pipeline` (pvr_hardcode.c lines 147-168).
`upload` is the external `pvr_gpu_upload_usc` (bytes, size, cache-line
size → `VkResult` and the device-memory handle written into
`shader_state_out->bo`); `cache_line_size` stands for the value obtained
from the device's hardware descriptor.  A NULL resolution result (C
dereferences it) or a failed class assertion yields `none`. -/
def pvr_hard_code_compute_pipeline (table : List PvrHardCodingData)
    (program : String) (cache_line_size : Nat)
    (upload : List Nat → Nat → Nat → Int × Nat) : Option ComputeResult :=
  match (pvr_get_hard_coding_data table program).1 with
  | none => none
  | some d =>
    match d.payload with
    | .graphics _ => none
    | .compute c =>
      let build_info_out := c.build_info
      let shader_state_out := c.shader_info
      let up := upload c.shader c.shader_size cache_line_size
      some { ret := up.1,
             shader_state := { shader_state_out with bo := up.2 },
             build_info := build_info_out,
             events := [.write_build_info, .write_shader_state, .call_upload] }

/-- `pvr_hard_code_graphics_shaders` (pvr_hardcode.c lines 170-184):
returns the vertex and fragment shader-binary references stored at index
`pipeline_n`.  A failed assertion (wrong class, out-of-range index) or an
out-of-bounds array access yields `none`. -/
def pvr_hard_code_graphics_shaders (table : List PvrHardCodingData)
    (program : String) (pipeline_n : Nat) : Option (Nat × Nat) :=
  match (pvr_get_hard_coding_data table program).1 with
  | none => none
  | some d =>
    match d.payload with
    | .compute _ => none
    | .graphics g =>
      if pipeline_n < g.shader_count then
        match g.vert_shaders.get? pipeline_n, g.frag_shaders.get? pipeline_n with
        | some v, some f => some (v, f)
        | _, _ => none
      else none

/-- `pvr_hard_code_graphics_vertex_state` (pvr_hardcode.c lines 186-196):
copies the vertex shader-state record at index 0 — not `pipeline_n` — into
the caller's output. -/
def pvr_hard_code_graphics_vertex_state (table : List PvrHardCodingData)
    (program : String) (pipeline_n : Nat) : Option PvrVertexShaderState :=
  match (pvr_get_hard_coding_data table program).1 with
  | none => none
  | some d =>
    match d.payload with
    | .compute _ => none
    | .graphics g =>
      if pipeline_n < g.shader_count then g.vert_shader_states.get? 0
      else none

/-- `pvr_hard_code_graphics_fragment_state` (pvr_hardcode.c lines 198-208):
copies the fragment shader-state record at index 0 — not `pipeline_n` —
into the caller's output. -/
def pvr_hard_code_graphics_fragment_state (table : List PvrHardCodingData)
    (program : String) (pipeline_n : Nat) : Option PvrFragmentShaderState :=
  match (pvr_get_hard_coding_data table program).1 with
  | none => none
  | some d =>
    match d.payload with
    | .compute _ => none
    | .graphics g =>
      if pipeline_n < g.shader_count then g.frag_shader_states.get? 0
      else none

/-- Modelled from the spec: the slice of `struct rogue_build_ctx` written
by the injection: the stage data and the common-data records for the
vertex and fragment stages (the two `common_data` slots this module
touches). -/
structure RogueBuildCtx where
  stage_data : RogueBuildData
  common_data_vertex : RogueCommonBuildData
  common_data_fragment : RogueCommonBuildData
deriving DecidableEq, Repr

/-- `pvr_hard_code_graphics_inject_build_info` (pvr_hardcode.c lines
210-245): writes the per-stage build data of the entry at `pipeline_n`
into the build context, asserts that the temp and coefficient counts just
written agree with the shader-state records at the same index, and returns
the updated context together with the two explicit-constant-usage
descriptors.  Any failed assertion yields `none`. -/
def pvr_hard_code_graphics_inject_build_info (table : List PvrHardCodingData)
    (program : String) (pipeline_n : Nat) (ctx : RogueBuildCtx) :
    Option (RogueBuildCtx × PvrExplicitConstantUsage × PvrExplicitConstantUsage) :=
  match (pvr_get_hard_coding_data table program).1 with
  | none => none
  | some d =>
    match d.payload with
    | .compute _ => none
    | .graphics g =>
      if pipeline_n < g.shader_count then
        match g.build_infos.get? pipeline_n,
              g.vert_shader_states.get? pipeline_n,
              g.frag_shader_states.get? pipeline_n with
        | some bi, some vs, some fs =>
          let ctx1 : RogueBuildCtx :=
            { ctx with
              stage_data := bi.stage_data,
              common_data_vertex := bi.vert_common_data,
              common_data_fragment := bi.frag_common_data }
          if ctx1.common_data_vertex.temps == vs.stage_state.temps_count &&
             ctx1.common_data_fragment.temps == fs.stage_state.temps_count &&
             ctx1.common_data_vertex.coeffs == vs.stage_state.coefficient_size &&
             ctx1.common_data_fragment.coeffs == fs.stage_state.coefficient_size
          then some (ctx1, bi.vert_explicit_conts_usage, bi.frag_explicit_conts_usage)
          else none
        | _, _, _ => none
      else none

/-- The table-authoring invariant for a graphics entry: each of the five
parallel arrays holds exactly `shader_count` elements. -/
def GraphicsWF (g : GraphicsData) : Prop :=
  g.vert_shaders.length = g.shader_count ∧
  g.frag_shaders.length = g.shader_count ∧
  g.vert_shader_states.length = g.shader_count ∧
  g.frag_shader_states.length = g.shader_count ∧
  g.build_infos.length = g.shader_count

/-! Test fixtures: a well-formed two-pipeline graphics entry, a graphics
entry with deliberately mismatched temp counts, and an initial build
context; used to exercise the graphics accessors on concrete inputs. -/

/-- Vertex shader-state record number 0 of the test graphics entry. -/
def test_vert_state_a : PvrVertexShaderState :=
  { stage_state := { temps_count := 3, coefficient_size := 5 } }

/-- Vertex shader-state record number 1 of the test graphics entry. -/
def test_vert_state_b : PvrVertexShaderState :=
  { stage_state := { temps_count := 7, coefficient_size := 9 } }

/-- Fragment shader-state record number 0 of the test graphics entry. -/
def test_frag_state_a : PvrFragmentShaderState :=
  { stage_state := { temps_count := 2, coefficient_size := 4 } }

/-- Fragment shader-state record number 1 of the test graphics entry. -/
def test_frag_state_b : PvrFragmentShaderState :=
  { stage_state := { temps_count := 6, coefficient_size := 8 } }

/-- Build-info record number 0 of the test graphics entry; its common-data
counts agree with `test_vert_state_a` and `test_frag_state_a`. -/
def test_build_info_a : PvrHardCodeGraphicsBuildInfo :=
  { stage_data := { data := 100 },
    vert_common_data := { temps := 3, coeffs := 5 },
    frag_common_data := { temps := 2, coeffs := 4 },
    vert_explicit_conts_usage := { start_offset := 12 },
    frag_explicit_conts_usage := { start_offset := 34 } }

/-- Build-info record number 1 of the test graphics entry; its common-data
counts agree with `test_vert_state_b` and `test_frag_state_b`. -/
def test_build_info_b : PvrHardCodeGraphicsBuildInfo :=
  { stage_data := { data := 200 },
    vert_common_data := { temps := 7, coeffs := 9 },
    frag_common_data := { temps := 6, coeffs := 8 },
    vert_explicit_conts_usage := { start_offset := 56 },
    frag_explicit_conts_usage := { start_offset := 78 } }

/-- A well-formed graphics payload with two pipelines and distinct records
at the two indices. -/
def test_graphics_data : GraphicsData :=
  { vert_shaders := [10, 11],
    frag_shaders := [20, 21],
    vert_shader_states := [test_vert_state_a, test_vert_state_b],
    frag_shader_states := [test_frag_state_a, test_frag_state_b],
    build_infos := [test_build_info_a, test_build_info_b],
    shader_count := 2 }

/-- A registry entry wrapping `test_graphics_data`. -/
def test_graphics_entry : PvrHardCodingData :=
  { name := "test-graphics", payload := .graphics test_graphics_data }

/-- A one-entry test registry holding the graphics test entry. -/
def test_table : List PvrHardCodingData := [test_graphics_entry]

/-- A graphics payload whose build-info temp count (99) deliberately
disagrees with the temp count recorded in its vertex shader-state (3). -/
def bad_graphics_data : GraphicsData :=
  { vert_shaders := [10],
    frag_shaders := [20],
    vert_shader_states := [test_vert_state_a],
    frag_shader_states := [test_frag_state_a],
    build_infos :=
      [{ stage_data := { data := 100 },
         vert_common_data := { temps := 99, coeffs := 5 },
         frag_common_data := { temps := 2, coeffs := 4 },
         vert_explicit_conts_usage := { start_offset := 12 },
         frag_explicit_conts_usage := { start_offset := 34 } }],
    shader_count := 1 }

/-- A registry entry wrapping `bad_graphics_data`. -/
def bad_graphics_entry : PvrHardCodingData :=
  { name := "bad-graphics", payload := .graphics bad_graphics_data }

/-- A one-entry test registry holding the mismatched graphics entry. -/
def bad_table : List PvrHardCodingData := [bad_graphics_entry]

/-- An arbitrary initial build context, distinct from every injected value. -/
def test_ctx : RogueBuildCtx :=
  { stage_data := { data := 0 },
    common_data_vertex := { temps := 0, coeffs := 0 },
    common_data_fragment := { temps := 0, coeffs := 0 } }

/-! Helper lemmas shared by the claim theorems. -/

/-- The scan loop of the resolver is `List.find?` on the name key. -/
theorem find_hard_coding_data_eq_find (table : List PvrHardCodingData) (p : String) :
    find_hard_coding_data table p = table.find? (fun d => p == d.name) := by
  induction table with
  | nil => rfl
  | cons d rest ih =>
    cases h : (p == d.name) <;>
      simp [find_hard_coding_data, List.find?_cons, h, ih]

/-- The entry component of the resolver's result is the scan-loop result. -/
theorem pvr_get_hard_coding_data_fst (table : List PvrHardCodingData) (p : String) :
    (pvr_get_hard_coding_data table p).1 = find_hard_coding_data table p := by
  unfold pvr_get_hard_coding_data
  cases h : find_hard_coding_data table p <;> simp [h]

/-- Claim C2: `pvr_hard_code_shader_required` returns `false` exactly when
the process identity is a member of the fixed allow-list of compilable
programs, which contains exactly "triangle"; the check is a pure function
of the identity alone. -/
theorem pvr_shader_required_allowlist (program : String) :
    compilable_progs = ["triangle"] ∧
    (pvr_hard_code_shader_required program = false ↔ program ∈ compilable_progs) := by
  refine ⟨rfl, ?_⟩
  unfold pvr_hard_code_shader_required compilable_progs
  by_cases h : program = "triangle"
  · subst h
    simp [shader_required_scan]
  · simp [shader_required_scan, h]

/-- Witness for C2: "triangle" is allow-listed so hardcoding is not
required for it, while an unknown identity requires hardcoding. -/
theorem pvr_shader_required_allowlist_witness :
    pvr_hard_code_shader_required "triangle" = false ∧
    pvr_hard_code_shader_required "unknown_app" = true := by
  constructor
  · exact (pvr_shader_required_allowlist "triangle").2.mpr (by decide)
  · have h := (pvr_shader_required_allowlist "unknown_app").2
    cases hb : pvr_hard_code_shader_required "unknown_app"
    · exact absurd (h.mp hb) (by decide)
    · rfl

/-- Claim C3: `pvr_get_hard_coding_data` is a table-order first-match scan
on the exact name key; every shipped entry resolves, under its own
identity, to exactly itself with no diagnostic; and when no entry matches,
the result is not-found together with an error-level diagnostic naming the
unmatched process. -/
theorem pvr_resolve_first_match_spec :
    (∀ (table : List PvrHardCodingData) (p : String),
      (pvr_get_hard_coding_data table p).1 = table.find? (fun d => p == d.name)) ∧
    (∀ e ∈ hard_coding_table,
      pvr_get_hard_coding_data hard_coding_table e.name = (some e, [])) ∧
    (∀ (table : List PvrHardCodingData) (p : String),
      (∀ e ∈ table, e.name ≠ p) →
      pvr_get_hard_coding_data table p =
        (none, ["Could not find hard coding data for " ++ p])) := by
  refine ⟨?_, ?_, ?_⟩
  · intro table p
    rw [pvr_get_hard_coding_data_fst, find_hard_coding_data_eq_find]
  · intro e he
    have : e = simple_compute_entry := by
      simpa [hard_coding_table] using he
    subst this
    decide
  · intro table p hnone
    have hfind : find_hard_coding_data table p = none := by
      rw [find_hard_coding_data_eq_find]
      refine List.find?_eq_none.mpr ?_
      intro e he
      simpa using (hnone e he).symm
    simp [pvr_get_hard_coding_data, hfind]

/-- Witness for C3: the shipped entry resolves to itself under the identity
"simple-compute", and an unknown identity yields not-found plus the
diagnostic naming it. -/
theorem pvr_resolve_first_match_spec_witness :
    pvr_get_hard_coding_data hard_coding_table "simple-compute" =
      (some simple_compute_entry, []) ∧
    pvr_get_hard_coding_data hard_coding_table "unknown_app" =
      (none, ["Could not find hard coding data for " ++ "unknown_app"]) := by
  constructor
  · exact pvr_resolve_first_match_spec.2.1 simple_compute_entry (by decide)
  · exact pvr_resolve_first_match_spec.2.2 hard_coding_table "unknown_app" (by decide)

/-- Claim C1: on a resolved graphics entry, for every in-range pipeline
index, the vertex-state and fragment-state accessors copy the shader-state
record at index 0 of the entry's arrays into the caller's output,
regardless of the index passed. -/
theorem pvr_graphics_state_ignores_pipeline_index
    (table : List PvrHardCodingData) (program : String) (pipeline_n : Nat)
    (d : PvrHardCodingData) (g : GraphicsData)
    (hres : (pvr_get_hard_coding_data table program).1 = some d)
    (hg : d.payload = .graphics g)
    (hv0 : 0 < g.vert_shader_states.length)
    (hf0 : 0 < g.frag_shader_states.length)
    (hn : pipeline_n < g.shader_count) :
    pvr_hard_code_graphics_vertex_state table program pipeline_n =
      some (g.vert_shader_states.get ⟨0, hv0⟩) ∧
    pvr_hard_code_graphics_fragment_state table program pipeline_n =
      some (g.frag_shader_states.get ⟨0, hf0⟩) := by
  constructor
  · unfold pvr_hard_code_graphics_vertex_state
    rw [hres]; dsimp only; rw [hg]; dsimp only
    simp [hn, List.get?_eq_get hv0]
  · unfold pvr_hard_code_graphics_fragment_state
    rw [hres]; dsimp only; rw [hg]; dsimp only
    simp [hn, List.get?_eq_get hf0]

/-- Witness for C1: on the two-pipeline test entry, requesting pipeline
index 1 still yields the records stored at index 0, not those at index 1. -/
theorem pvr_graphics_state_ignores_pipeline_index_witness :
    pvr_hard_code_graphics_vertex_state test_table "test-graphics" 1 =
      some test_vert_state_a ∧
    pvr_hard_code_graphics_fragment_state test_table "test-graphics" 1 =
      some test_frag_state_a := by
  have h := pvr_graphics_state_ignores_pipeline_index test_table "test-graphics" 1
    test_graphics_entry test_graphics_data rfl rfl (by decide) (by decide) (by decide)
  exact ⟨h.1.trans rfl, h.2.trans rfl⟩

/-- Claim C5: on a resolved graphics entry, for every in-range pipeline
index, `pvr_hard_code_graphics_shaders` returns in its two output slots the
vertex and fragment shader-binary references stored at exactly that index
of the entry's arrays — the references held in the table, with no upload
performed. -/
theorem pvr_graphics_shaders_exact_index
    (table : List PvrHardCodingData) (program : String) (pipeline_n : Nat)
    (d : PvrHardCodingData) (g : GraphicsData)
    (hres : (pvr_get_hard_coding_data table program).1 = some d)
    (hg : d.payload = .graphics g)
    (hv : pipeline_n < g.vert_shaders.length)
    (hf : pipeline_n < g.frag_shaders.length)
    (hn : pipeline_n < g.shader_count) :
    pvr_hard_code_graphics_shaders table program pipeline_n =
      some (g.vert_shaders.get ⟨pipeline_n, hv⟩, g.frag_shaders.get ⟨pipeline_n, hf⟩) := by
  unfold pvr_hard_code_graphics_shaders
  rw [hres]; dsimp only; rw [hg]; dsimp only
  simp [hn, List.getElem?_eq_getElem hv, List.getElem?_eq_getElem hf]

/-- Witness for C5: on the two-pipeline test entry, pipeline index 1 yields
exactly the binary references stored at index 1 (11 and 21). -/
theorem pvr_graphics_shaders_exact_index_witness :
    pvr_hard_code_graphics_shaders test_table "test-graphics" 1 = some (11, 21) :=
  (pvr_graphics_shaders_exact_index test_table "test-graphics" 1
    test_graphics_entry test_graphics_data rfl rfl (by decide) (by decide)
    (by decide)).trans rfl

/-- Claim C7: on a resolved graphics entry, every pipeline index at or
beyond `shader_count` makes each of the four graphics accessors hit the
out-of-range fatal assertion, so no output is produced. -/
theorem pvr_graphics_oob_fatal
    (table : List PvrHardCodingData) (program : String) (pipeline_n : Nat)
    (d : PvrHardCodingData) (g : GraphicsData) (ctx : RogueBuildCtx)
    (hres : (pvr_get_hard_coding_data table program).1 = some d)
    (hg : d.payload = .graphics g)
    (hn : g.shader_count ≤ pipeline_n) :
    pvr_hard_code_graphics_shaders table program pipeline_n = none ∧
    pvr_hard_code_graphics_vertex_state table program pipeline_n = none ∧
    pvr_hard_code_graphics_fragment_state table program pipeline_n = none ∧
    pvr_hard_code_graphics_inject_build_info table program pipeline_n ctx = none := by
  have hlt : ¬ pipeline_n < g.shader_count := Nat.not_lt.mpr hn
  refine ⟨?_, ?_, ?_, ?_⟩
  · unfold pvr_hard_code_graphics_shaders
    rw [hres]; dsimp only; rw [hg]; dsimp only
    simp [hlt]
  · unfold pvr_hard_code_graphics_vertex_state
    rw [hres]; dsimp only; rw [hg]; dsimp only
    simp [hlt]
  · unfold pvr_hard_code_graphics_fragment_state
    rw [hres]; dsimp only; rw [hg]; dsimp only
    simp [hlt]
  · unfold pvr_hard_code_graphics_inject_build_info
    rw [hres]; dsimp only; rw [hg]; dsimp only
    simp [hlt]

/-- Witness for C7: on the two-pipeline test entry, pipeline index 2 makes
all four graphics accessors fail fatally. -/
theorem pvr_graphics_oob_fatal_witness :
    pvr_hard_code_graphics_shaders test_table "test-graphics" 2 = none ∧
    pvr_hard_code_graphics_vertex_state test_table "test-graphics" 2 = none ∧
    pvr_hard_code_graphics_fragment_state test_table "test-graphics" 2 = none ∧
    pvr_hard_code_graphics_inject_build_info test_table "test-graphics" 2 test_ctx = none :=
  pvr_graphics_oob_fatal test_table "test-graphics" 2 test_graphics_entry
    test_graphics_data test_ctx rfl rfl (by decide)

/-- Claim C4: on a resolved compute entry, `pvr_hard_code_compute_pipeline`
writes the entry's stored build-info and shader-state records into the
caller's outputs bit-identically, with the uploaded memory handle `bo` as
the only exception, and its return value is exactly the external uploader's
result, propagated verbatim with no retry. -/
theorem pvr_compute_pipeline_copy_spec
    (table : List PvrHardCodingData) (program : String) (cache_line_size : Nat)
    (upload : List Nat → Nat → Nat → Int × Nat)
    (d : PvrHardCodingData) (c : ComputeData)
    (hres : (pvr_get_hard_coding_data table program).1 = some d)
    (hc : d.payload = .compute c) :
    pvr_hard_code_compute_pipeline table program cache_line_size upload =
      some { ret := (upload c.shader c.shader_size cache_line_size).1,
             shader_state :=
               { c.shader_info with
                 bo := (upload c.shader c.shader_size cache_line_size).2 },
             build_info := c.build_info,
             events := [.write_build_info, .write_shader_state, .call_upload] } := by
  unfold pvr_hard_code_compute_pipeline
  rw [hres]; dsimp only; rw [hc]

/-- Witness for C4: running the compute path on the shipped entry with an
uploader that fails with code -5 and hands back handle 77 returns -5
verbatim and the entry's records with only `bo` replaced. -/
theorem pvr_compute_pipeline_copy_spec_witness :
    pvr_hard_code_compute_pipeline hard_coding_table "simple-compute" 64
        (fun _ _ _ => (-5, 77)) =
      some { ret := -5,
             shader_state :=
               { uses_atomic_ops := false,
                 uses_barrier := false,
                 uses_num_workgroups := false,
                 const_shared_reg_count := 4,
                 input_register_count := 8,
                 work_size := 1,
                 coefficient_register_count := 4,
                 bo := 77 },
             build_info := simple_compute_data.build_info,
             events := [.write_build_info, .write_shader_state, .call_upload] } :=
  (pvr_compute_pipeline_copy_spec hard_coding_table "simple-compute" 64
    (fun _ _ _ => (-5, 77)) simple_compute_entry simple_compute_data rfl rfl).trans rfl

/-- Claim C6: in the build-info injection, after the per-stage common data
for the pipeline index is written into the build context, the consistency
assertions hold exactly when the temp count and coefficient-register count
of the injected common-data for each of the vertex and fragment stages
equal the `temps_count` and `coefficient_size` recorded in that stage's
shader-state record at the same index; when they do, the written context
and the two constant-usage descriptors are produced, and a mismatch is a
fatal assertion failure. -/
theorem pvr_inject_build_info_consistency
    (table : List PvrHardCodingData) (program : String) (pipeline_n : Nat)
    (ctx : RogueBuildCtx) (d : PvrHardCodingData) (g : GraphicsData)
    (bi : PvrHardCodeGraphicsBuildInfo) (vs : PvrVertexShaderState)
    (fs : PvrFragmentShaderState)
    (hres : (pvr_get_hard_coding_data table program).1 = some d)
    (hg : d.payload = .graphics g)
    (hbi : g.build_infos.get? pipeline_n = some bi)
    (hvs : g.vert_shader_states.get? pipeline_n = some vs)
    (hfs : g.frag_shader_states.get? pipeline_n = some fs)
    (hn : pipeline_n < g.shader_count) :
    ((pvr_hard_code_graphics_inject_build_info table program pipeline_n ctx).isSome =
        true ↔
      (bi.vert_common_data.temps = vs.stage_state.temps_count ∧
       bi.frag_common_data.temps = fs.stage_state.temps_count ∧
       bi.vert_common_data.coeffs = vs.stage_state.coefficient_size ∧
       bi.frag_common_data.coeffs = fs.stage_state.coefficient_size)) ∧
    (bi.vert_common_data.temps = vs.stage_state.temps_count →
     bi.frag_common_data.temps = fs.stage_state.temps_count →
     bi.vert_common_data.coeffs = vs.stage_state.coefficient_size →
     bi.frag_common_data.coeffs = fs.stage_state.coefficient_size →
     pvr_hard_code_graphics_inject_build_info table program pipeline_n ctx =
       some ({ ctx with
               stage_data := bi.stage_data,
               common_data_vertex := bi.vert_common_data,
               common_data_fragment := bi.frag_common_data },
             bi.vert_explicit_conts_usage, bi.frag_explicit_conts_usage)) := by
  unfold pvr_hard_code_graphics_inject_build_info
  rw [hres]; dsimp only; rw [hg]; dsimp only
  rw [if_pos hn, hbi, hvs, hfs]; dsimp only
  constructor
  · by_cases hcond : (bi.vert_common_data.temps == vs.stage_state.temps_count &&
        (bi.frag_common_data.temps == fs.stage_state.temps_count) &&
        (bi.vert_common_data.coeffs == vs.stage_state.coefficient_size) &&
        (bi.frag_common_data.coeffs == fs.stage_state.coefficient_size)) = true
    · rw [if_pos hcond]
      simp only [Bool.and_eq_true, beq_iff_eq] at hcond
      exact iff_of_true rfl ⟨hcond.1.1.1, hcond.1.1.2, hcond.1.2, hcond.2⟩
    · rw [if_neg hcond]
      simp only [Bool.and_eq_true, beq_iff_eq, not_and] at hcond
      refine iff_of_false (by simp) ?_
      intro hc
      exact hcond ⟨⟨hc.1, hc.2.1⟩, hc.2.2.1⟩ hc.2.2.2
  · intro h1 h2 h3 h4
    have hcond : (bi.vert_common_data.temps == vs.stage_state.temps_count &&
        (bi.frag_common_data.temps == fs.stage_state.temps_count) &&
        (bi.vert_common_data.coeffs == vs.stage_state.coefficient_size) &&
        (bi.frag_common_data.coeffs == fs.stage_state.coefficient_size)) = true := by
      simp [h1, h2, h3, h4]
    rw [if_pos hcond]

/-- Witness for C6: the consistent test entry passes the injection's
assertions at pipeline index 0, while the entry whose build-info temp
count (99) disagrees with its vertex shader-state temp count (3) fails
them fatally. -/
theorem pvr_inject_build_info_consistency_witness :
    (pvr_hard_code_graphics_inject_build_info test_table "test-graphics" 0
        test_ctx).isSome = true ∧
    (pvr_hard_code_graphics_inject_build_info bad_table "bad-graphics" 0
        test_ctx).isSome = false := by
  constructor
  · exact (pvr_inject_build_info_consistency test_table "test-graphics" 0 test_ctx
      test_graphics_entry test_graphics_data test_build_info_a test_vert_state_a
      test_frag_state_a rfl rfl rfl rfl rfl (by decide)).1.mpr
      ⟨rfl, rfl, rfl, rfl⟩
  · have h := (pvr_inject_build_info_consistency bad_table "bad-graphics" 0 test_ctx
      bad_graphics_entry bad_graphics_data
      ({ stage_data := { data := 100 },
         vert_common_data := { temps := 99, coeffs := 5 },
         frag_common_data := { temps := 2, coeffs := 4 },
         vert_explicit_conts_usage := { start_offset := 12 },
         frag_explicit_conts_usage := { start_offset := 34 } })
      test_vert_state_a test_frag_state_a rfl rfl rfl rfl rfl (by decide)).1
    cases hb : (pvr_hard_code_graphics_inject_build_info bad_table "bad-graphics" 0
        test_ctx).isSome
    · rfl
    · exact absurd (h.mp hb).1 (by decide)

/-- Claim C8: with the process identity "simple-compute" and an external
uploader that succeeds (`VK_SUCCESS = 0`), the compute path returns a
non-error result and the outputs satisfy `work_size = 1` and
`barrier_reg = ROGUE_REG_UNUSED`. -/
theorem pvr_simple_compute_end_to_end
    (cache_line_size : Nat) (upload : List Nat → Nat → Nat → Int × Nat)
    (hsuccess : (upload simple_compute_data.shader simple_compute_data.shader_size
        cache_line_size).1 = 0) :
    (pvr_hard_code_compute_pipeline hard_coding_table "simple-compute"
        cache_line_size upload).map
      (fun r => (r.ret, r.shader_state.work_size, r.build_info.barrier_reg)) =
      some (0, 1, ROGUE_REG_UNUSED) := by
  have hres : (pvr_get_hard_coding_data hard_coding_table "simple-compute").1 =
      some simple_compute_entry := rfl
  unfold pvr_hard_code_compute_pipeline
  rw [hres]; dsimp only
  rw [show simple_compute_entry.payload = .compute simple_compute_data from rfl]
  dsimp only [Option.map_some]
  rw [hsuccess]
  rfl

/-- Witness for C8: a mocked uploader that succeeds and hands back handle
99 yields result 0, `work_size = 1` and the unused-register sentinel. -/
theorem pvr_simple_compute_end_to_end_witness :
    (pvr_hard_code_compute_pipeline hard_coding_table "simple-compute" 64
        (fun _ _ _ => (0, 99))).map
      (fun r => (r.ret, r.shader_state.work_size, r.build_info.barrier_reg)) =
      some (0, 1, ROGUE_REG_UNUSED) :=
  pvr_simple_compute_end_to_end 64 (fun _ _ _ => (0, 99)) rfl

/-- Claim C9: the compute path writes both caller outputs before invoking
the GPU uploader, so on an upload failure it returns the error with the
outputs already overwritten by the entry's data — not atomic on error.
The event trace lists both writes strictly before the upload call, the
returned code is the uploader's (non-zero) code, and the output slots hold
the entry's stored records, `bo` excepted. -/
theorem pvr_compute_pipeline_not_atomic
    (table : List PvrHardCodingData) (program : String) (cache_line_size : Nat)
    (upload : List Nat → Nat → Nat → Int × Nat)
    (d : PvrHardCodingData) (c : ComputeData)
    (hres : (pvr_get_hard_coding_data table program).1 = some d)
    (hc : d.payload = .compute c)
    (hfail : (upload c.shader c.shader_size cache_line_size).1 ≠ 0) :
    (pvr_hard_code_compute_pipeline table program cache_line_size upload).map
        (fun r => r.ret) =
      some (upload c.shader c.shader_size cache_line_size).1 ∧
    (pvr_hard_code_compute_pipeline table program cache_line_size upload).map
        (fun r => r.ret) ≠ some 0 ∧
    (pvr_hard_code_compute_pipeline table program cache_line_size upload).map
        (fun r => r.build_info) = some c.build_info ∧
    (pvr_hard_code_compute_pipeline table program cache_line_size upload).map
        (fun r => { r.shader_state with bo := c.shader_info.bo }) =
      some c.shader_info ∧
    (pvr_hard_code_compute_pipeline table program cache_line_size upload).map
        (fun r => r.events) =
      some [ComputeEvent.write_build_info, ComputeEvent.write_shader_state,
            ComputeEvent.call_upload] := by
  have hrun : pvr_hard_code_compute_pipeline table program cache_line_size upload =
      some { ret := (upload c.shader c.shader_size cache_line_size).1,
             shader_state :=
               { c.shader_info with
                 bo := (upload c.shader c.shader_size cache_line_size).2 },
             build_info := c.build_info,
             events := [.write_build_info, .write_shader_state, .call_upload] } := by
    unfold pvr_hard_code_compute_pipeline
    rw [hres]; dsimp only; rw [hc]
  rw [hrun]
  refine ⟨rfl, ?_, rfl, rfl, rfl⟩
  intro h
  exact hfail (Option.some.inj h)

/-- Witness for C9: on the shipped entry with an uploader failing with
code -2, the error is returned while the outputs already hold the entry's
build-info and shader-state. -/
theorem pvr_compute_pipeline_not_atomic_witness :
    (pvr_hard_code_compute_pipeline hard_coding_table "simple-compute" 64
        (fun _ _ _ => (-2, 0))).map (fun r => r.ret) = some (-2) ∧
    (pvr_hard_code_compute_pipeline hard_coding_table "simple-compute" 64
        (fun _ _ _ => (-2, 0))).map (fun r => r.ret) ≠ some 0 ∧
    (pvr_hard_code_compute_pipeline hard_coding_table "simple-compute" 64
        (fun _ _ _ => (-2, 0))).map (fun r => r.build_info) =
      some simple_compute_data.build_info ∧
    (pvr_hard_code_compute_pipeline hard_coding_table "simple-compute" 64
        (fun _ _ _ => (-2, 0))).map
        (fun r => { r.shader_state with bo := simple_compute_data.shader_info.bo }) =
      some simple_compute_data.shader_info ∧
    (pvr_hard_code_compute_pipeline hard_coding_table "simple-compute" 64
        (fun _ _ _ => (-2, 0))).map (fun r => r.events) =
      some [ComputeEvent.write_build_info, ComputeEvent.write_shader_state,
            ComputeEvent.call_upload] :=
  pvr_compute_pipeline_not_atomic hard_coding_table "simple-compute" 64
    (fun _ _ _ => (-2, 0)) simple_compute_entry simple_compute_data rfl rfl
    (by decide)

/-- The shipped registry resolves every identity either to nothing or to
its single entry. -/
theorem shipped_resolve_eq (program : String) (d : PvrHardCodingData)
    (h : (pvr_get_hard_coding_data hard_coding_table program).1 = some d) :
    d = simple_compute_entry := by
  rw [pvr_get_hard_coding_data_fst] at h
  simp only [hard_coding_table, find_hard_coding_data] at h
  split at h
  · exact (Option.some.inj h).symm
  · exact absurd h (by simp)

/-- Claim C10: the shipped registry holds exactly one entry, named
"simple-compute" with class Compute; hence every successful resolution
yields a Compute entry, and each of the four graphics accessors fails its
class assertion fatally for every identity and pipeline index under the
shipped table. -/
theorem pvr_shipped_registry_compute_only :
    hard_coding_table = [simple_compute_entry] ∧
    simple_compute_entry.name = "simple-compute" ∧
    simple_compute_entry.payload = .compute simple_compute_data ∧
    (∀ (program : String) (d : PvrHardCodingData),
      (pvr_get_hard_coding_data hard_coding_table program).1 = some d →
      d.payload = .compute simple_compute_data) ∧
    (∀ (program : String) (pipeline_n : Nat),
      pvr_hard_code_graphics_shaders hard_coding_table program pipeline_n = none) ∧
    (∀ (program : String) (pipeline_n : Nat),
      pvr_hard_code_graphics_vertex_state hard_coding_table program pipeline_n = none) ∧
    (∀ (program : String) (pipeline_n : Nat),
      pvr_hard_code_graphics_fragment_state hard_coding_table program pipeline_n = none) ∧
    (∀ (program : String) (pipeline_n : Nat) (ctx : RogueBuildCtx),
      pvr_hard_code_graphics_inject_build_info hard_coding_table program pipeline_n
        ctx = none) := by
  refine ⟨rfl, rfl, rfl, ?_, ?_, ?_, ?_, ?_⟩
  · intro program d hres
    rw [shipped_resolve_eq program d hres]
    rfl
  · intro program pipeline_n
    unfold pvr_hard_code_graphics_shaders
    cases hfind : (pvr_get_hard_coding_data hard_coding_table program).1 with
    | none => rfl
    | some d => rw [shipped_resolve_eq program d hfind]; rfl
  · intro program pipeline_n
    unfold pvr_hard_code_graphics_vertex_state
    cases hfind : (pvr_get_hard_coding_data hard_coding_table program).1 with
    | none => rfl
    | some d => rw [shipped_resolve_eq program d hfind]; rfl
  · intro program pipeline_n
    unfold pvr_hard_code_graphics_fragment_state
    cases hfind : (pvr_get_hard_coding_data hard_coding_table program).1 with
    | none => rfl
    | some d => rw [shipped_resolve_eq program d hfind]; rfl
  · intro program pipeline_n ctx
    unfold pvr_hard_code_graphics_inject_build_info
    cases hfind : (pvr_get_hard_coding_data hard_coding_table program).1 with
    | none => rfl
    | some d => rw [shipped_resolve_eq program d hfind]; rfl

/-- Witness for C10: under the shipped table, even the successfully
resolving identity "simple-compute" yields a Compute entry and makes every
graphics accessor fail its class assertion. -/
theorem pvr_shipped_registry_compute_only_witness :
    simple_compute_entry.payload = PvrHardCodePayload.compute simple_compute_data ∧
    pvr_hard_code_graphics_shaders hard_coding_table "simple-compute" 0 = none ∧
    pvr_hard_code_graphics_vertex_state hard_coding_table "simple-compute" 0 = none ∧
    pvr_hard_code_graphics_fragment_state hard_coding_table "simple-compute" 0 = none ∧
    pvr_hard_code_graphics_inject_build_info hard_coding_table "simple-compute" 0
      test_ctx = none := by
  refine ⟨?_, ?_, ?_, ?_, ?_⟩
  · exact pvr_shipped_registry_compute_only.2.2.2.1 "simple-compute"
      simple_compute_entry rfl
  · exact pvr_shipped_registry_compute_only.2.2.2.2.1 "simple-compute" 0
  · exact pvr_shipped_registry_compute_only.2.2.2.2.2.1 "simple-compute" 0
  · exact pvr_shipped_registry_compute_only.2.2.2.2.2.2.1 "simple-compute" 0
  · exact pvr_shipped_registry_compute_only.2.2.2.2.2.2.2 "simple-compute" 0 test_ctx
